import Mathlib

/-!
Verification development for the realistic-ai-bot repository.

This file gives a shallow embedding of the message splitter, the
configuration surface (`src/app.py`), the Telegram HTML detection
(`src/utils.py`) and the prototype chat coordinator
(`dev/chat_coordinator_claude.py`), together with theorems checking the
repository's specification claims against it.

Python strings are modelled as lists of Unicode code points (`Str`), so
`len` becomes `List.length` and `str.split` becomes an explicit
left-to-right non-overlapping scan.  Floating point times and delays are
modelled as rationals.
-/

deriving instance DecidableEq for Except

namespace RealisticAiBot

/-- Python strings are sequences of code points. -/
abbrev Str := List Char

/-- Model of Python `message.split("\n\n")`: left-to-right non-overlapping
split on the literal two-character double-newline separator.  On the empty
string it returns `[[]]`, exactly as `"".split("\n\n") == [""]` in Python. -/
def splitNN : Str → List Str
  | [] => [[]]
  | [c] => [[c]]
  | c :: d :: rest =>
    if c = '\n' ∧ d = '\n' then
      [] :: splitNN rest
    else
      match splitNN (d :: rest) with
      | [] => [[c]]
      | p :: ps => (c :: p) :: ps

/-- Model of Python `"\n\n".join(parts)`. -/
def joinNN : List Str → Str
  | [] => []
  | [p] => p
  | p :: q :: ps => p ++ '\n' :: '\n' :: joinNN (q :: ps)

/-- Splitter modes from `src/app.py` (`class SplitterMode`). -/
inductive SplitterMode where
  | none
  | simple
  | simple_improved
  | markdown
  | structured
  | multi_query
deriving DecidableEq

/-- Delay modes from `src/app.py` (`class DelayMode`). -/
inductive DelayMode where
  | none
  | simple
  | random
  | structured
deriving DecidableEq

/-- Reply modes from `src/app.py` (`class ReplyMode`). -/
inductive ReplyMode where
  | reply
  | answer
deriving DecidableEq

/-- The accumulation loop of `App._split_message_simple_improved`
(src/app.py lines 285-304): `current` is the accumulator
(`current_message`), parts that keep the accumulator at length at most
`minLen` are appended with the double-newline separator, and the
accumulator is flushed once its length strictly exceeds `minLen`.  The
final accumulator is emitted only when non-empty. -/
def combineShortParts (minLen : ℤ) : List Str → Str → List Str
  | [], current => if current = [] then [] else [current]
  | part :: rest, current =>
    if current = [] then
      combineShortParts minLen rest part
    else if (current.length : ℤ) ≤ minLen then
      combineShortParts minLen rest (current ++ '\n' :: '\n' :: part)
    else
      current :: combineShortParts minLen rest part

/-- `App._split_message_simple_improved` (src/app.py lines 276-307):
split on double newlines, then combine parts that are too short. -/
def split_message_simple_improved (minLen : ℤ) (message : Str) : List Str :=
  combineShortParts minLen (splitNN message) []

/-- `App.split_message` (src/app.py lines 261-274).  The `markdown` and
`structured` branches raise `NotImplementedError` and any other
unhandled mode falls through to `ValueError`; both are modelled with
`Except.error`. -/
def split_message (mode : SplitterMode) (minLen : ℤ) (message : Str) :
    Except String (List Str) :=
  match mode with
  | .none => .ok [message]
  | .simple => .ok (splitNN message)
  | .simple_improved => .ok (split_message_simple_improved minLen message)
  | .markdown => .error "Markdown splitting not implemented"
  | .structured => .error "Structured splitting not implemented"
  | .multi_query => .error "Invalid splitter mode"

/-- The list `supported_models` from `src/app.py` lines 58-87
(uncommented entries only). -/
def supported_models : List String :=
  ["claude-3.5-haiku", "claude-3.5-sonnet", "claude-3.7",
   "gpt-4o-mini", "gpt-4.1-nano", "gpt-4o", "o3",
   "gemini-2.5-flash", "gemini-2.5-pro", "grok-3-mini", "grok-3"]

/-- The pydantic `AppConfig` model from `src/app.py` lines 90-131.  The
float-valued fields are modelled as rationals.  Pydantic validates
field types only; `AppConfig` declares no cross-field validator. -/
structure AppConfig where
  model : String
  splitter_mode : SplitterMode
  splitter_min_message_length : ℤ
  convert_to_markdown : Bool
  delay_mode : DelayMode
  delay_before_first_message : ℚ
  delay_simple : ℚ
  delay_random_min : ℚ
  delay_random_max : ℚ
  reply_mode : ReplyMode
deriving DecidableEq

/-- The field defaults declared on `AppConfig` in `src/app.py`. -/
def defaultAppConfig : AppConfig where
  model := "claude-3-5-haiku"
  splitter_mode := .simple_improved
  splitter_min_message_length := 200
  convert_to_markdown := true
  delay_mode := .random
  delay_before_first_message := 0
  delay_simple := 5
  delay_random_min := 0
  delay_random_max := 10
  reply_mode := .answer

/-- The `App.model` property setter (src/app.py lines 175-183): raises
`ValueError` when the model is not in `supported_models` (returning the
configuration unchanged with `false`), otherwise assigns it. -/
def set_model (c : AppConfig) (model : String) : AppConfig × Bool :=
  if supported_models.contains model then
    ({ c with model := model }, true)
  else
    (c, false)

/-- The `App.delay_random_min` property setter (src/app.py lines
245-247): an unconditional assignment, no validation. -/
def set_delay_random_min (c : AppConfig) (delay : ℚ) : AppConfig :=
  { c with delay_random_min := delay }

/-- The `App.delay_random_max` property setter (src/app.py lines
253-255): an unconditional assignment, no validation. -/
def set_delay_random_max (c : AppConfig) (delay : ℚ) : AppConfig :=
  { c with delay_random_max := delay }

/-- The backquote character, `chr(96)`. -/
def backquote : Char := Char.ofNat 96

/-- Model of Python `text.split("\n")` (single-character separator). -/
def splitLines : Str → List Str
  | [] => [[]]
  | c :: rest =>
    if c = '\n' then
      [] :: splitLines rest
    else
      match splitLines rest with
      | [] => [[c]]
      | p :: ps => (c :: p) :: ps

/-- Python `line.startswith("```")`. -/
def startsWithTicks (line : Str) : Bool :=
  match line with
  | a :: b :: c :: _ => a = backquote && b = backquote && c = backquote
  | _ => false

/-- Search for the regex `<[^>]+>`: an occurrence of `<`, at least one
character other than `>`, then `>` (src/utils.py line 123). -/
def hasHtmlTag : Str → Bool
  | [] => false
  | c :: rest =>
    (c = '<' &&
      (match rest with
       | [] => false
       | d :: rest2 => !(d = '>') && rest2.contains '>')) ||
    hasHtmlTag rest

/-- The line loop of `is_html` (src/utils.py lines 102-120): split the
text into the parts outside fenced code blocks.  A line starting with
three backquotes toggles `in_code_block`; closing a block flushes the
accumulated part (even when empty), and lines outside blocks are
accumulated with a trailing newline.  The final accumulated part is
flushed only when non-empty. -/
def nonCodeParts : List Str → Bool → Str → List Str → List Str
  | [], _, current, parts => if current = [] then parts else parts ++ [current]
  | line :: rest, inCodeBlock, current, parts =>
    if startsWithTicks line then
      if inCodeBlock then
        nonCodeParts rest false [] (parts ++ [current])
      else
        nonCodeParts rest true current parts
    else
      if inCodeBlock then
        nonCodeParts rest inCodeBlock current parts
      else
        nonCodeParts rest inCodeBlock (current ++ line ++ ['\n']) parts

/-- `is_html` from `src/utils.py` lines 99-124: true when any part of the
text outside fenced code blocks contains an HTML tag. -/
def is_html (text : Str) : Bool :=
  (nonCodeParts (splitLines text) false [] []).any hasHtmlTag

/-- `markdown_to_html` from `src/utils.py` lines 127-147.  The mistune
markdown pipeline (`mistune.create_markdown` with the custom
`TelegramHTMLRenderer`) is an external library and is abstracted as the
opaque function `render`; the repository's own code contributes the
already-converted detection and pass-through. -/
def markdown_to_html (render : Str → Str) (text : Str) : Str :=
  if is_html text then text else render text

/-- An incoming user message (the fields of the aiogram `Message` that
`ChatCoordinator` reads: `text`/`caption`, `message_id`, `chat.id`).  A
message with `text = []` models one with neither text nor caption. -/
structure IncomingMsg where
  text : Str
  messageId : ℤ
  chatId : ℤ
deriving DecidableEq

/-- The `OutgoingMessage` dataclass from `dev/chat_coordinator_claude.py`
lines 23-30. -/
structure OutgoingMessage where
  timestamp : ℚ
  content : Str
  chatId : ℤ
  userId : ℤ
  replyToMessageId : Option ℤ
  isReply : Bool
deriving DecidableEq

/-- The `UserState` class from `dev/chat_coordinator_claude.py` lines
33-46: per-user incoming and outgoing queues, the last activation time
and the processing flag. -/
structure UserState where
  incoming : List IncomingMsg
  outgoing : List OutgoingMessage
  lastActivationTime : ℚ
  isProcessing : Bool
deriving DecidableEq

/-- A fresh `UserState()` as built by `_get_user_state`. -/
def UserState.init : UserState :=
  { incoming := [], outgoing := [], lastActivationTime := 0, isProcessing := false }

/-- Observable per-user coordinator state: the mutable `UserState` plus
two logs recording the interactions with the external collaborators —
the inputs passed to `app.generate_response` and the messages delivered
through `_send_message`. -/
structure CoordUser where
  us : UserState
  generationCalls : List Str
  sent : List OutgoingMessage
deriving DecidableEq

/-- The loop body of `_schedule_message_sending`
(dev/chat_coordinator_claude.py lines 322-352): one `OutgoingMessage`
per part at the running `send_time`; after every part except the last,
`send_time` advances by `delay_simple` in simple mode, by the next draw
of `random.uniform(delay_random_min, delay_random_max)` in random mode
(the draws are abstracted as the stream `draws`), and by zero
otherwise. -/
def scheduleLoop (cfg : AppConfig) (draws : ℕ → ℚ) (orig : IncomingMsg)
    (userId : ℤ) : List Str → ℕ → ℚ → List OutgoingMessage
  | [], _, _ => []
  | content :: rest, i, sendTime =>
    let out : OutgoingMessage :=
      { timestamp := sendTime
        content := content
        chatId := orig.chatId
        userId := userId
        replyToMessageId :=
          if i = 0 ∧ cfg.reply_mode = ReplyMode.reply then some orig.messageId
          else none
        isReply := cfg.reply_mode = ReplyMode.reply }
    let sendTime' :=
      if rest = [] then sendTime
      else
        sendTime +
          (match cfg.delay_mode with
           | .simple => cfg.delay_simple
           | .random => draws i
           | _ => 0)
    out :: scheduleLoop cfg draws orig userId rest (i + 1) sendTime'

/-- `_schedule_message_sending` without its trailing immediate queue
check (dev/chat_coordinator_claude.py lines 305-352): the first part is
planned at `now + delay_before_first_message`. -/
def schedule_message_sending (cfg : AppConfig) (draws : ℕ → ℚ)
    (orig : IncomingMsg) (userId : ℤ) (now : ℚ) (messages : List Str) :
    List OutgoingMessage :=
  scheduleLoop cfg draws orig userId messages 0 (now + cfg.delay_before_first_message)

/-- The dequeue loop of `_process_user_outgoing_queue`
(dev/chat_coordinator_claude.py lines 377-388): pop messages whose send
time has arrived; on the first message that is not yet due, put it back
at the END of the queue (asyncio queues have no peek) and stop.  Returns
the messages to send and the remaining queue. -/
def collectDue (now : ℚ) : List OutgoingMessage →
    List OutgoingMessage × List OutgoingMessage
  | [] => ([], [])
  | m :: rest =>
    if m.timestamp ≤ now then
      let (due, remaining) := collectDue now rest
      (m :: due, remaining)
    else
      ([], rest ++ [m])

/-- `_process_user_outgoing_queue` followed by `_send_message` for each
due message (dev/chat_coordinator_claude.py lines 362-394 and 396-434):
due messages are removed from the queue and delivered, with the content
converted by `markdown_to_html` when `convert_to_markdown` is set. -/
def process_user_outgoing_queue (cfg : AppConfig) (render : Str → Str)
    (now : ℚ) (cu : CoordUser) : CoordUser :=
  let (due, remaining) := collectDue now cu.us.outgoing
  { cu with
    us := { cu.us with outgoing := remaining }
    sent := cu.sent ++ due.map (fun m =>
      { m with content :=
          if cfg.convert_to_markdown then markdown_to_html render m.content
          else m.content }) }

/-- `_process_user_incoming_messages` (dev/chat_coordinator_claude.py
lines 245-303).  Early returns when the incoming queue is empty or the
user is already being processed; otherwise the processing flag is set,
ONE message is dequeued, the generator is invoked on its text alone and
the streamed chunks are accumulated (abstracted as `gen`, whose
`Except.error` result models the generator raising before any chunk is
used), the response is split and scheduled, and the `finally` block
clears the processing flag on every exit route, including the no-text
early return and generator or splitter exceptions. -/
def process_user_incoming_messages (cfg : AppConfig) (render : Str → Str)
    (gen : Str → Except String Str) (draws : ℕ → ℚ) (userId : ℤ) (now : ℚ)
    (cu : CoordUser) : CoordUser :=
  match cu.us.incoming with
  | [] => cu
  | msg :: restQueue =>
    if cu.us.isProcessing then cu
    else
      let cu1 : CoordUser := { cu with us := { cu.us with incoming := restQueue } }
      if msg.text = [] then
        { cu1 with us := { cu1.us with isProcessing := false } }
      else
        let cu2 : CoordUser :=
          { cu1 with generationCalls := cu1.generationCalls ++ [msg.text] }
        match gen msg.text with
        | .error _ => { cu2 with us := { cu2.us with isProcessing := false } }
        | .ok response =>
          match split_message cfg.splitter_mode cfg.splitter_min_message_length
              response with
          | .error _ => { cu2 with us := { cu2.us with isProcessing := false } }
          | .ok parts =>
            let outs := schedule_message_sending cfg draws msg userId now parts
            let cu3 : CoordUser :=
              { cu2 with us := { cu2.us with outgoing := cu2.us.outgoing ++ outs } }
            let cu4 := process_user_outgoing_queue cfg render now cu3
            { cu4 with us :=
                { cu4.us with isProcessing := false, lastActivationTime := now } }

/-- Activation types dispatched by `_handle_activation`
(dev/chat_coordinator_claude.py lines 234-243). -/
inductive ActivationType where
  | process_incoming
  | send_message
deriving DecidableEq

/-- A job registered with the apscheduler, as created by
`schedule_activation` (dev/chat_coordinator_claude.py lines 176-215).
The job id is the string `f"{activation_type}_{user_id}_{activation_time}"`,
modelled by the triple of those three fields; `replace_existing=True`
only replaces a job carrying the SAME id, so jobs with different
activation times coexist. -/
structure SchedJob where
  fireAt : ℚ
  activationType : ActivationType
  userId : ℤ
  activationTime : ℚ
deriving DecidableEq

/-- Two jobs collide exactly when their apscheduler ids coincide. -/
def SchedJob.sameId (a b : SchedJob) : Bool :=
  a.activationType = b.activationType ∧ a.userId = b.userId ∧
    a.activationTime = b.activationTime

/-- `scheduler.add_job(..., id=job_id, replace_existing=True)`: drop any
job with the same id, then append the new job. -/
def addJob (jobs : List SchedJob) (j : SchedJob) : List SchedJob :=
  jobs.filter (fun j0 => !(j0.sameId j)) ++ [j]

/-- Single-user simulation state: the coordinator's per-user state plus
the scheduler's pending jobs. -/
structure SimState where
  cu : CoordUser
  jobs : List SchedJob
deriving DecidableEq

/-- The initial simulation state: a lazily created fresh `UserState`,
no pending jobs, nothing generated or sent. -/
def SimState.init : SimState :=
  { cu := { us := UserState.init, generationCalls := [], sent := [] }, jobs := [] }

/-- `handle_incoming_message` (dev/chat_coordinator_claude.py lines
142-174): enqueue the message, then schedule a `process_incoming`
activation at `now + 1.0` (the hard-coded `activation_delay`).
`schedule_activation` computes `delay = max(0, activation_time - now)`
and registers the job at `now + delay`. -/
def handle_incoming_message (userId : ℤ) (now : ℚ) (msg : IncomingMsg)
    (st : SimState) : SimState :=
  let activationTime : ℚ := now + 1
  let delay : ℚ := max 0 (activationTime - now)
  { st with
    cu := { st.cu with us := { st.cu.us with incoming := st.cu.us.incoming ++ [msg] } }
    jobs := addJob st.jobs
      { fireAt := now + delay
        activationType := .process_incoming
        userId := userId
        activationTime := activationTime } }

/-- `_handle_activation` (dev/chat_coordinator_claude.py lines 221-243):
dispatch a fired job by its activation type. -/
def fireJob (cfg : AppConfig) (render : Str → Str)
    (gen : Str → Except String Str) (draws : ℕ → ℚ) (userId : ℤ)
    (j : SchedJob) (cu : CoordUser) : CoordUser :=
  match j.activationType with
  | .process_incoming =>
    process_user_incoming_messages cfg render gen draws userId j.fireAt cu
  | .send_message => process_user_outgoing_queue cfg render j.fireAt cu

/-- The earliest pending job (apscheduler fires jobs in `run_date`
order; ties keep registration order). -/
def earliestJob (jobs : List SchedJob) : Option SchedJob :=
  jobs.foldl
    (fun acc j =>
      match acc with
      | none => some j
      | some b => if j.fireAt < b.fireAt then some j else some b)
    none

/-- Remove one pending job (a fired job is consumed exactly once). -/
def removeJob (jobs : List SchedJob) (j : SchedJob) : List SchedJob :=
  jobs.filter (fun j0 => !(j0.sameId j))

/-- Deterministic single-user event loop: pending message arrivals
(time-ordered) and scheduled jobs are consumed in time order, arrivals
first on ties.  Arrivals run `handle_incoming_message`; jobs fire
through `_handle_activation`.  Handlers run to completion, matching the
cooperative single-loop model.  `fuel` bounds the number of events. -/
def runSim (cfg : AppConfig) (render : Str → Str)
    (gen : Str → Except String Str) (draws : ℕ → ℚ) (userId : ℤ) :
    ℕ → List (ℚ × IncomingMsg) → SimState → SimState
  | 0, _, st => st
  | fuel + 1, arrivals, st =>
    match arrivals, earliestJob st.jobs with
    | [], none => st
    | [], some j =>
      runSim cfg render gen draws userId fuel []
        { cu := fireJob cfg render gen draws userId j st.cu
          jobs := removeJob st.jobs j }
    | (t, m) :: restArrivals, none =>
      runSim cfg render gen draws userId fuel restArrivals
        (handle_incoming_message userId t m st)
    | (t, m) :: restArrivals, some j =>
      if t ≤ j.fireAt then
        runSim cfg render gen draws userId fuel restArrivals
          (handle_incoming_message userId t m st)
      else
        runSim cfg render gen draws userId fuel ((t, m) :: restArrivals)
          { cu := fireJob cfg render gen draws userId j st.cu
            jobs := removeJob st.jobs j }

/-- Configuration for the concrete scenarios below: simple splitter,
simple delay, no markdown conversion. -/
def scenarioConfig : AppConfig :=
  { defaultAppConfig with
      splitter_mode := .simple
      delay_mode := .simple
      convert_to_markdown := false }

/-- The message "Hi" of the spec's debounce example. -/
def scenarioHi : IncomingMsg := { text := "Hi".data, messageId := 1, chatId := 7 }

/-- The message "there" of the spec's debounce example. -/
def scenarioThere : IncomingMsg := { text := "there".data, messageId := 2, chatId := 7 }

/-- The spec's debounce example executed against the prototype: the
user sends "Hi" at t = 0 and "there" at t = 0.5, inside the 1-second
debounce window, with an echoing generator. -/
def burstRun : SimState :=
  runSim scenarioConfig (fun s => s) (fun s => Except.ok s) (fun _ => 0) 42 10
    [(0, scenarioHi), (mkRat 1 2, scenarioThere)] SimState.init

/-- The outgoing messages scheduled for two parts at time 0 under
`scenarioConfig` (delay mode `simple`). -/
def twoPartSched : List OutgoingMessage :=
  schedule_message_sending scenarioConfig (fun _ => 0) scenarioHi 42 0
    ["a".data, "b".data]

theorem splitNN_ne_nil (s : Str) : splitNN s ≠ [] := by
  match s with
  | [] => simp [splitNN]
  | [c] => simp [splitNN]
  | c :: d :: rest =>
    rw [splitNN]
    split
    · simp
    · split <;> simp

/-- Joining the segments produced by `splitNN` with the double-newline
separator reconstructs the original string: the split drops nothing. -/
theorem joinNN_splitNN : ∀ s : Str, joinNN (splitNN s) = s
  | [] => rfl
  | [_] => rfl
  | c :: d :: rest => by
    rw [splitNN]
    split
    · rename_i h
      obtain ⟨hc, hd⟩ := h
      subst hc; subst hd
      have ih := joinNN_splitNN rest
      cases hsp : splitNN rest with
      | nil => exact absurd hsp (splitNN_ne_nil rest)
      | cons p ps =>
        rw [hsp] at ih
        simp [joinNN, ih]
    · have ih := joinNN_splitNN (d :: rest)
      cases hsp : splitNN (d :: rest) with
      | nil => exact absurd hsp (splitNN_ne_nil _)
      | cons p ps =>
        rw [hsp] at ih
        cases ps with
        | nil =>
          simp only [joinNN] at ih ⊢
          simp [ih]
        | cons q qs =>
          simp only [joinNN] at ih ⊢
          simp [List.cons_append, ih]

theorem mem_dropLast_cons {α} {p x : α} {l : List α}
    (h : p ∈ (x :: l).dropLast) : p = x ∨ p ∈ l.dropLast := by
  cases l with
  | nil => simp [List.dropLast] at h
  | cons y ys =>
    rw [List.dropLast_cons₂] at h
    rcases List.mem_cons.mp h with h | h
    · exact Or.inl h
    · exact Or.inr h

theorem combineShortParts_dropLast_long (minLen : ℤ) :
    ∀ (parts : List Str) (current : Str),
      ∀ p ∈ (combineShortParts minLen parts current).dropLast,
        minLen < (p.length : ℤ)
  | [], current => by
    intro p hp
    rw [combineShortParts] at hp
    split at hp <;> simp [List.dropLast] at hp
  | part :: rest, current => by
    intro p hp
    rw [combineShortParts] at hp
    split at hp
    · exact combineShortParts_dropLast_long minLen rest part p hp
    · split at hp
      · exact combineShortParts_dropLast_long minLen rest _ p hp
      · rename_i hne hlong
        rcases mem_dropLast_cons hp with rfl | hp2
        · omega
        · exact combineShortParts_dropLast_long minLen rest part p hp2

theorem combineShortParts_ne_empty (minLen : ℤ) :
    ∀ (parts : List Str) (current : Str),
      ∀ p ∈ combineShortParts minLen parts current, p ≠ []
  | [], current => by
    intro p hp
    rw [combineShortParts] at hp
    split at hp
    · simp at hp
    · rename_i hne
      simp at hp
      subst hp
      exact hne
  | part :: rest, current => by
    intro p hp
    rw [combineShortParts] at hp
    split at hp
    · exact combineShortParts_ne_empty minLen rest part p hp
    · split at hp
      · exact combineShortParts_ne_empty minLen rest _ p hp
      · rename_i hne hlong
        rcases List.mem_cons.mp hp with rfl | hp2
        · exact hne
        · exact combineShortParts_ne_empty minLen rest part p hp2

/-- C3 counterexample: the claim says `split_message("")` returns the
empty sequence under every splitter mode and never `[""]`, but in mode
`none` (and `simple`) the code returns the one-element sequence
containing the empty string. -/
theorem c3_empty_input_counterexample :
    split_message SplitterMode.none 200 [] = Except.ok [[]] ∧
    Except.ok ([[]] : List Str) ≠ (Except.ok ([] : List Str) : Except String (List Str)) := by
  exact ⟨rfl, by decide⟩

/-- C3 amended: on the empty input, `split_message` returns `[""]` in
modes `none` and `simple`, the empty sequence only in mode
`simple_improved`, and a `NotImplementedError` in modes `markdown` and
`structured`. -/
theorem c3_empty_input_amended (minLen : ℤ) :
    split_message SplitterMode.none minLen [] = Except.ok [[]] ∧
    split_message SplitterMode.simple minLen [] = Except.ok [[]] ∧
    split_message SplitterMode.simple_improved minLen [] = Except.ok [] ∧
    split_message SplitterMode.markdown minLen [] =
      Except.error "Markdown splitting not implemented" ∧
    split_message SplitterMode.structured minLen [] =
      Except.error "Structured splitting not implemented" :=
  ⟨rfl, rfl, rfl, rfl, rfl⟩

/-- C4 counterexample: the claim says an accumulated part of length
greater than or equal to `min_part_length` always starts a new emitted
part boundary immediately after it.  With `min_part_length = 1` and
input `"a\n\nb"`, the accumulated part `"a"` has length `1 ≥ 1`, yet the
next segment is appended to it instead of starting a new part: the
result is the single part `"a\n\nb"` and `"a"` is not emitted on its
own (the code flushes only when the length is STRICTLY greater than the
minimum). -/
theorem c4_boundary_counterexample :
    (1 : ℤ) ≤ (("a".data : Str).length : ℤ) ∧
    split_message_simple_improved 1 ("a\n\nb".data) = ["a\n\nb".data] ∧
    ("a".data : Str) ∉ split_message_simple_improved 1 ("a\n\nb".data) := by
  refine ⟨by decide, by decide, by decide⟩

/-- C4 amended: in mode `simple_improved`, every emitted part except
possibly the last has length STRICTLY GREATER than `min_part_length`
(hence at least the minimum), and a new emitted part starts only once
the accumulated part's length strictly exceeds `min_part_length`; a
part of length exactly `min_part_length` is still extended. -/
theorem c4_min_length_amended (minLen : ℤ) (message : Str) :
    ((split_message_simple_improved minLen message).dropLast.all
      (fun p => decide (minLen < (p.length : ℤ)))) = true := by
  rw [List.all_eq_true]
  intro p hp
  rw [decide_eq_true_iff]
  exact combineShortParts_dropLast_long minLen (splitNN message) [] p hp

/-- C5 counterexample: the claim says mode `simple` drops empty trailing
segments, so a text ending in the double-newline separator should yield
no empty final part.  The code returns Python's `message.split("\n\n")`
unmodified: `"a\n\n"` yields `["a", ""]`, whose final part is empty. -/
theorem c5_trailing_counterexample :
    split_message SplitterMode.simple 200 ("a\n\n".data) =
      Except.ok [['a'], []] ∧
    ([['a'], []] : List Str).getLast? = some [] := by
  exact ⟨by decide, by decide⟩

/-- C5 amended: mode `simple` returns exactly the left-to-right
segmentation of the text on the literal double-newline separator with
nothing dropped — empty trailing segments included — so joining the
returned parts with the separator reconstructs the input text. -/
theorem c5_simple_split_amended (minLen : ℤ) (message : Str) :
    split_message SplitterMode.simple minLen message =
      Except.ok (splitNN message) ∧
    joinNN (splitNN message) = message :=
  ⟨rfl, joinNN_splitNN message⟩

/-- C9 (implicit): in mode `simple_improved` no emitted part is the
empty string, for every input text and every `min_part_length`: empty
segments at the start of an accumulation are absorbed and the final
accumulator is emitted only if non-empty. -/
theorem c9_no_empty_parts (minLen : ℤ) (message : Str) :
    ((split_message_simple_improved minLen message).all
      (fun p => !p.isEmpty)) = true := by
  rw [List.all_eq_true]
  intro p hp
  have := combineShortParts_ne_empty minLen (splitNN message) [] p hp
  cases p with
  | nil => exact absurd rfl this
  | cons c cs => rfl

/-- C6 counterexample: the claim says a configuration with
`delay_random_min > delay_random_max` is rejected at
construction/validation time and that `delay_random_max ≥
delay_random_min ≥ 0` holds for every accepted configuration.  Neither
`AppConfig` nor the delay setters validate anything: setting
`delay_random_min = 5` and `delay_random_max = 1` through the `App`
property setters is accepted and yields a configuration violating the
invariant. -/
theorem c6_delay_validation_counterexample :
    (set_delay_random_max (set_delay_random_min defaultAppConfig 5) 1).delay_random_min = 5 ∧
    (set_delay_random_max (set_delay_random_min defaultAppConfig 5) 1).delay_random_max = 1 ∧
    ¬((set_delay_random_max (set_delay_random_min defaultAppConfig 5) 1).delay_random_min ≤
        (set_delay_random_max (set_delay_random_min defaultAppConfig 5) 1).delay_random_max) := by
  refine ⟨rfl, rfl, by decide⟩

/-- C6 amended: no validation of the delay bounds is performed anywhere
in the configuration surface: the `delay_random_min` and
`delay_random_max` setters store ANY rational values unconditionally
(so every pair, including `min > max` and negative values, is
accepted), and `delay_random_max ≥ delay_random_min ≥ 0` holds for the
default configuration but is not enforced. -/
theorem c6_no_delay_validation_amended (c : AppConfig) (v w : ℚ) :
    (set_delay_random_max (set_delay_random_min c v) w).delay_random_min = v ∧
    (set_delay_random_max (set_delay_random_min c v) w).delay_random_max = w ∧
    defaultAppConfig.delay_random_min ≤ defaultAppConfig.delay_random_max ∧
    0 ≤ defaultAppConfig.delay_random_min :=
  ⟨rfl, rfl, by decide, by decide⟩

/-- C10 (implicit): the `App.model` setter raises a `ValueError` and
leaves the configured model (and the whole configuration) unchanged
when the requested model is not in `supported_models`, and updates the
configured model to exactly the requested value when it is. -/
theorem c10_model_setter (c : AppConfig) (model : String) :
    (supported_models.contains model = false → set_model c model = (c, false)) ∧
    (supported_models.contains model = true →
      set_model c model = ({ c with model := model }, true)) := by
  constructor <;> intro h <;> unfold set_model <;> rw [h] <;> simp

/-- Witness for C10: `"gpt-5"` is unsupported and is rejected with the
configuration unchanged; `"gpt-4o"` is supported and is stored. -/
theorem c10_model_setter_witness :
    (supported_models.contains "gpt-5" = false ∧
      set_model defaultAppConfig "gpt-5" = (defaultAppConfig, false)) ∧
    (supported_models.contains "gpt-4o" = true ∧
      set_model defaultAppConfig "gpt-4o" =
        ({ defaultAppConfig with model := "gpt-4o" }, true)) :=
  ⟨⟨by decide, (c10_model_setter defaultAppConfig "gpt-5").1 (by decide)⟩,
   ⟨by decide, (c10_model_setter defaultAppConfig "gpt-4o").2 (by decide)⟩⟩

/-- C2: if the generator raises before emitting any chunk while a
user's incoming messages are being processed, then afterwards the
user's processing flag is false and the outgoing queue is unchanged
(still empty); the `finally` block clears the flag on every exit route,
including the generator failure and the no-text early return. -/
theorem c2_failure_cleanup (cfg : AppConfig) (render : Str → Str)
    (draws : ℕ → ℚ) (userId : ℤ) (now : ℚ) (cu : CoordUser) (e : String)
    (h1 : cu.us.isProcessing = false) (h2 : cu.us.outgoing = []) :
    (process_user_incoming_messages cfg render (fun _ => Except.error e)
        draws userId now cu).us.isProcessing = false ∧
    (process_user_incoming_messages cfg render (fun _ => Except.error e)
        draws userId now cu).us.outgoing = [] := by
  unfold process_user_incoming_messages
  cases hq : cu.us.incoming with
  | nil => exact ⟨h1, h2⟩
  | cons msg rest =>
    rw [h1]
    by_cases ht : msg.text = []
    · simp [ht, h2]
    · simp [ht, h2]

/-- Witness for C2: a concrete user with one queued text message, an
idle processing flag and an empty outgoing queue, against a generator
that always raises. -/
theorem c2_failure_cleanup_witness :
    ({ us := { incoming := [{ text := "Hi".data, messageId := 1, chatId := 7 }],
               outgoing := [], lastActivationTime := 0, isProcessing := false },
       generationCalls := [], sent := [] } : CoordUser).us.isProcessing = false ∧
    (process_user_incoming_messages defaultAppConfig (fun s => s)
        (fun _ => Except.error "generation failed") (fun _ => 0) 42 0
        { us := { incoming := [{ text := "Hi".data, messageId := 1, chatId := 7 }],
                  outgoing := [], lastActivationTime := 0, isProcessing := false },
          generationCalls := [], sent := [] }).us.isProcessing = false ∧
    (process_user_incoming_messages defaultAppConfig (fun s => s)
        (fun _ => Except.error "generation failed") (fun _ => 0) 42 0
        { us := { incoming := [{ text := "Hi".data, messageId := 1, chatId := 7 }],
                  outgoing := [], lastActivationTime := 0, isProcessing := false },
          generationCalls := [], sent := [] }).us.outgoing = [] := by
  refine ⟨rfl, ?_, ?_⟩
  · exact (c2_failure_cleanup defaultAppConfig (fun s => s) (fun _ => 0) 42 0
      _ "generation failed" rfl rfl).1
  · exact (c2_failure_cleanup defaultAppConfig (fun s => s) (fun _ => 0) 42 0
      _ "generation failed" rfl rfl).2

theorem cons_map_range_succ {α} (f : ℕ → α) (n : ℕ) :
    f 0 :: List.map (fun k => f (k + 1)) (List.range n) =
      List.map f (List.range (n + 1)) := by
  rw [List.range_succ_eq_map]
  simp [List.map_map, Function.comp]

theorem scheduleLoop_timestamps_simple (cfg : AppConfig) (draws : ℕ → ℚ)
    (orig : IncomingMsg) (userId : ℤ) (h : cfg.delay_mode = DelayMode.simple) :
    ∀ (messages : List Str) (i : ℕ) (t : ℚ),
      (scheduleLoop cfg draws orig userId messages i t).map
          (fun o => o.timestamp) =
        (List.range messages.length).map
          (fun k : ℕ => t + (k : ℚ) * cfg.delay_simple)
  | [] => by intro i t; rfl
  | content :: rest => by
    intro i t
    rw [scheduleLoop]
    cases rest with
    | nil => simp [scheduleLoop, List.range_succ]
    | cons r rs =>
      have ih := scheduleLoop_timestamps_simple cfg draws orig userId h
        (r :: rs) (i + 1) (t + cfg.delay_simple)
      simp only [List.map_cons, h]
      rw [if_neg (List.cons_ne_nil r rs), ih]
      show t :: _ = List.map _ (List.range ((r :: rs).length + 1))
      rw [← cons_map_range_succ (fun k : ℕ => t + (k : ℚ) * cfg.delay_simple)
        ((r :: rs).length)]
      congr 1
      · push_cast
        ring
      · apply List.map_congr_left
        intro k _
        push_cast
        ring

/-- C8: in delay mode `simple`, the planned send times of consecutive
scheduled parts differ by exactly `delay_simple`, and the first part's
planned send time is the scheduling time plus
`delay_before_first_message`. -/
theorem c8_delay_monotonicity (cfg : AppConfig) (draws : ℕ → ℚ)
    (orig : IncomingMsg) (userId : ℤ) (now : ℚ) (messages : List Str)
    (h : cfg.delay_mode = DelayMode.simple) :
    (∀ (i : ℕ) (a b : OutgoingMessage),
      (schedule_message_sending cfg draws orig userId now messages)[i]? = some a →
      (schedule_message_sending cfg draws orig userId now messages)[i + 1]? = some b →
      b.timestamp - a.timestamp = cfg.delay_simple) ∧
    (∀ m0 : OutgoingMessage,
      (schedule_message_sending cfg draws orig userId now messages)[0]? = some m0 →
      m0.timestamp = now + cfg.delay_before_first_message) := by
  have hmap : (schedule_message_sending cfg draws orig userId now messages).map
      (fun o => o.timestamp) =
      (List.range messages.length).map
        (fun k : ℕ =>
          (now + cfg.delay_before_first_message) + (k : ℚ) * cfg.delay_simple) := by
    unfold schedule_message_sending
    exact scheduleLoop_timestamps_simple cfg draws orig userId h messages 0 _
  have key : ∀ (i : ℕ) (a : OutgoingMessage),
      (schedule_message_sending cfg draws orig userId now messages)[i]? = some a →
      a.timestamp =
        now + cfg.delay_before_first_message + (i : ℚ) * cfg.delay_simple := by
    intro i a ha
    have h1 : ((schedule_message_sending cfg draws orig userId now messages).map
        (fun o => o.timestamp))[i]? = some a.timestamp := by
      rw [List.getElem?_map, ha]
      rfl
    rw [hmap, List.getElem?_map] at h1
    have hi : i < messages.length := by
      by_contra hge
      rw [List.getElem?_eq_none (by simpa using Nat.le_of_not_lt hge)] at h1
      simp at h1
    rw [List.getElem?_range hi] at h1
    simp only [Option.map_some', Option.some.injEq] at h1
    exact h1.symm
  constructor
  · intro i a b ha hb
    rw [key i a ha, key (i + 1) b hb]
    push_cast
    ring
  · intro m0 h0
    rw [key 0 m0 h0]
    push_cast
    ring

section ConcreteEvaluation

attribute [local semireducible] Rat.add Rat.sub Rat.mul Rat.inv

/-- C1: the claim says N messages from one user inside the debounce
window produce exactly one generation call whose input is the batch of
all N messages.  Running the prototype on the spec's own example ("Hi"
at t = 0, "there" at t = 0.5, 1-second window) instead produces TWO
generation calls, one per message, each with only that message's text:
`schedule_activation` embeds the activation timestamp in the job id, so
the second message's activation does not replace the first, and each
`_process_user_incoming_messages` call dequeues a single message. -/
theorem c1_debounce_two_calls :
    burstRun.cu.generationCalls = ["Hi".data, "there".data] ∧
    burstRun.cu.generationCalls.length = 2 := by
  constructor <;> decide

/-- Witness for C8: two parts scheduled at time 0 under simple delay
mode have planned send times 0 and 5, so consecutive parts differ by
`delay_simple = 5` and the first part is planned at
`0 + delay_before_first_message`. -/
theorem c8_delay_monotonicity_witness :
    (twoPartSched[0]? =
      some { timestamp := 0, content := "a".data, chatId := 7, userId := 42
             replyToMessageId := none, isReply := false } ∧
     twoPartSched[1]? =
      some { timestamp := 5, content := "b".data, chatId := 7, userId := 42
             replyToMessageId := none, isReply := false }) ∧
    (5 : ℚ) - 0 = scenarioConfig.delay_simple ∧
    (0 : ℚ) = 0 + scenarioConfig.delay_before_first_message := by
  have h := c8_delay_monotonicity scenarioConfig (fun _ => 0) scenarioHi 42 0
    ["a".data, "b".data] rfl
  have h0 : twoPartSched[0]? =
      some { timestamp := 0, content := "a".data, chatId := 7, userId := 42
             replyToMessageId := none, isReply := false } := by decide
  have h1 : twoPartSched[1]? =
      some { timestamp := 5, content := "b".data, chatId := 7, userId := 42
             replyToMessageId := none, isReply := false } := by decide
  refine ⟨⟨h0, h1⟩, ?_, ?_⟩
  · exact h.1 0 _ _ h0 h1
  · exact h.2 _ h0

end ConcreteEvaluation

end RealisticAiBot
